import Mathlib

/-!
# go-deluge: the command layer of `methods.go`

A shallow embedding of the RPC methods of `methods.go` and the properties of
their response handling: the two-step envelope check, per-operation payload
decoding, version dispatch and batch partial-failure aggregation.

Conventions of the embedding:

* a Go function returning `(T, error)` is a function into `Outcome T`: either
  the returned pair, or a run-time panic (failed type assertion, index out of
  range);
* the receiver `c *Client`, the transport invocations and the logger output
  are threaded through explicitly as a `State`;
* everything `methods.go` consumes but does not define (the transport, the
  rencode scan primitive, the option and account codecs) is a field of `Env`.
-/

namespace Deluge

/-! ## Data model -/

/-- Go `string`: an immutable sequence of bytes. -/
structure GoString where
  bytes : List UInt8
deriving DecidableEq, Repr

/-- The conversion `string(b)` of a byte slice `b`: same bytes, in the same order. -/
def GoString.ofBytes (b : List UInt8) : GoString := ⟨b⟩

/-- A Go string literal. -/
def GoString.lit (s : String) : GoString := ⟨s.toUTF8.toList⟩

/-- The empty Go string, the zero value of `string`. -/
def GoString.empty : GoString := ⟨[]⟩

/-- A decoded rencode value as held in an `interface{}`: the untyped tree of
scalars, ordered sequences (`rencode.List`) and mappings (`rencode.Dictionary`). -/
inductive Value where
  | nil
  | bool (b : Bool)
  | int (n : Int)
  | float (bits : Nat)
  | bytes (b : List UInt8)
  | str (s : GoString)
  | list (vs : List Value)
  | dict (kvs : List (Value × Value))

/-- The values of a `rencode.List`. -/
abbrev RList := List Value

/-- The entries of a `rencode.Dictionary`, in insertion order. -/
abbrev Dictionary := List (Value × Value)

/-- The method `rencode.List.Add(values...)`: appends the values in order. -/
def RList.Add (l : RList) (values : List Value) : RList := l ++ values

/-- The method `rencode.Dictionary.Add(key, value)`. -/
def Dictionary.Add (d : Dictionary) (key value : Value) : Dictionary := d ++ [(key, value)]

/-- Modelled from the spec: the daemon-reported error of a response envelope,
"carried as structured data (the daemon's own error value)"; the type is declared
outside methods.go, which never inspects it. -/
structure RPCError where
  detail : GoString
deriving DecidableEq, Repr

/-- Go `error` values that the methods return. `ErrInvalidReturnValue` and
`ErrInvalidDictionaryResponse` are the two shape errors; `rpc` is an `RPCError`
returned as an `error`; `external` is a failure produced outside methods.go
(by the transport or by the scan primitive). -/
inductive Error where
  | ErrInvalidReturnValue
  | ErrInvalidDictionaryResponse
  | rpc (e : RPCError)
  | external (msg : String)
deriving DecidableEq, Repr

/-- Modelled from the spec: the response envelope
`{ isError: bool, error: DaemonError?, value: DecodedValue }` of which methods.go
uses `IsError()`, the embedded `RPCError` and `returnValue`. -/
structure DelugeResponse where
  isError : Bool
  RPCError : RPCError
  returnValue : RList

/-- Modelled from the spec: the `IsError` predicate of the response envelope. -/
def DelugeResponse.IsError (resp : DelugeResponse) : Bool := resp.isError

/-- The type `TorrentError`: a torrent id and an error message. -/
structure TorrentError where
  ID : GoString
  Message : GoString
deriving DecidableEq, Repr

/-- A Go slice as a caller observes it: the nil slice, or a non-nil slice
holding elements. -/
inductive Slice (α : Type) where
  | nil
  | mk (elems : List α)
deriving DecidableEq, Repr

/-- The elements of a slice; the nil slice has none. -/
def Slice.toList {α : Type} : Slice α → List α
  | .nil => []
  | .mk elems => elems

/-- The builtin `len(s)`. -/
def Slice.len {α : Type} (s : Slice α) : Nat := s.toList.length

/-- The test `s == nil`. -/
def Slice.isNil {α : Type} : Slice α → Bool
  | .nil => true
  | .mk _ => false

/-- The builtin `append(s, x)`: a non-nil slice with `x` after the elements of `s`. -/
def Slice.append {α : Type} (s : Slice α) (x : α) : Slice α := .mk (s.toList ++ [x])

/-- What a call of a Go function of result type `(T, error)` does: it returns
a value and an error (`none` is the nil error), or it panics. -/
inductive Outcome (α : Type) where
  | ret (val : α) (err : Option Error)
  | panicked
deriving DecidableEq, Repr

/-- One invocation of the transport: `c.rpc(ctx, method, args, kwargs)`. -/
structure Call where
  method : String
  args : RList
  kwargs : Dictionary

/-- A configured `Logger` (a non-nil pointer), identified by a handle. -/
structure Logger where
  handle : Nat
deriving DecidableEq, Repr

/-- One `Printf` call on a logger: the format string and its arguments. -/
structure LogEntry where
  logger : Logger
  format : String
  args : List Value

/-- The client settings, of which methods.go reads `Logger` (`none` is nil). -/
structure Settings where
  Logger : Option Logger
deriving DecidableEq, Repr

/-- The fields of `Client` that methods.go reads. -/
structure Client where
  v2daemon : Bool
  settings : Settings
deriving DecidableEq, Repr

/-- The state a method runs in: the receiver, the transport invocations made
so far (oldest first) and the diagnostics logged so far (oldest first). -/
structure State where
  client : Client
  calls : List Call
  logs : List LogEntry

/-- The collaborators that methods.go calls but does not define.

* `rpc`: the reply of the transport to a call, a response envelope or a
  transport failure;
* `scanInt64`, `scanInt32`, `scanString`, `scanList`: `rencode.List.Scan` into
  a single target of that type (external library);
* `toDictionary`: `(*Options).toDictionary(v2daemon)`, on a possibly nil pointer;
* `toList`: `Account.toList()`; `fromDictionary`: `(*Account).fromDictionary(dict)`. -/
structure Env where
  Options : Type
  Account : Type
  rpc : Call → Except Error DelugeResponse
  scanInt64 : RList → Except Error Int
  scanInt32 : RList → Except Error Int
  scanString : RList → Except Error GoString
  scanList : RList → Except Error RList
  toDictionary : Option Options → Bool → Dictionary
  toList : Account → RList
  fromDictionary : Dictionary → Except Error Account

/-- The method `c.rpc`: one transport invocation, recorded in the state. -/
def Client.rpc (env : Env) (method : String) (args : RList) (kwargs : Dictionary)
    (s : State) : Except Error DelugeResponse × State :=
  (env.rpc ⟨method, args, kwargs⟩, { s with calls := s.calls ++ [⟨method, args, kwargs⟩] })

/-- The method `Logger.Printf(format, args...)`: one diagnostic, recorded in the state. -/
def Logger.Printf (l : Logger) (format : String) (args : List Value) (s : State) : State :=
  { s with logs := s.logs ++ [⟨l, format, args⟩] }

/-- The conversion `uint16(port)` of an `int32`: the low 16 bits. -/
def uint16 (port : Int) : Nat := (port % 65536).toNat

/-- The range of `int32`. -/
def isInt32 (p : Int) : Prop := -2147483648 ≤ p ∧ p ≤ 2147483647

/-! ## The methods -/

/-- The function `sliceToRencodeList`: adds each string of `s`, in order, to an empty list. -/
def sliceToRencodeList (s : List GoString) : RList :=
  s.foldl (fun list v => RList.Add list [Value.str v]) []

/-- The method `GetFreeSpace`. -/
def GetFreeSpace (env : Env) (path : GoString) (s : State) : Outcome Int × State :=
  let args := RList.Add [] [Value.str path]
  match Client.rpc env "core.get_free_space" args [] s with
  | (.error err, s) => (.ret 0 (some err), s)
  | (.ok resp, s) =>
    if resp.IsError then (.ret 0 (some (.rpc resp.RPCError)), s)
    else
      match env.scanInt64 resp.returnValue with
      | .error err => (.ret 0 (some err), s)
      | .ok freeSpace => (.ret freeSpace none, s)

/-- The method `GetLibtorrentVersion`. -/
def GetLibtorrentVersion (env : Env) (s : State) : Outcome GoString × State :=
  match Client.rpc env "core.get_libtorrent_version" [] [] s with
  | (.error err, s) => (.ret GoString.empty (some err), s)
  | (.ok resp, s) =>
    if resp.IsError then (.ret GoString.empty (some (.rpc resp.RPCError)), s)
    else
      match env.scanString resp.returnValue with
      | .error err => (.ret GoString.empty (some err), s)
      | .ok ltVersion => (.ret ltVersion none, s)

/-- The decoding of an add-torrent response, lines 78-87 (and 103-112, 128-137):
the hash is the first payload value, nil when the torrent was already added. -/
def decodeTorrentHash (vals : RList) : Outcome GoString :=
  if vals.length == 0 then .ret GoString.empty (some .ErrInvalidReturnValue)
  else
    match (vals[0]? : Option Value) with
    | none => .panicked
    | some .nil => .ret GoString.empty none
    | some (.bytes torrentHash) => .ret (GoString.ofBytes torrentHash) none
    | some _ => .panicked

/-- The method `AddTorrentMagnet`. -/
def AddTorrentMagnet (env : Env) (magnetURI : GoString) (options : Option env.Options)
    (s : State) : Outcome GoString × State :=
  let args := RList.Add [] [Value.str magnetURI, Value.dict (env.toDictionary options s.client.v2daemon)]
  match Client.rpc env "core.add_torrent_magnet" args [] s with
  | (.error err, s) => (.ret GoString.empty (some err), s)
  | (.ok resp, s) =>
    if resp.IsError then (.ret GoString.empty (some (.rpc resp.RPCError)), s)
    else (decodeTorrentHash resp.returnValue, s)

/-- The method `AddTorrentURL`. -/
def AddTorrentURL (env : Env) (url : GoString) (options : Option env.Options)
    (s : State) : Outcome GoString × State :=
  let args := RList.Add [] [Value.str url, Value.dict (env.toDictionary options s.client.v2daemon)]
  match Client.rpc env "core.add_torrent_url" args [] s with
  | (.error err, s) => (.ret GoString.empty (some err), s)
  | (.ok resp, s) =>
    if resp.IsError then (.ret GoString.empty (some (.rpc resp.RPCError)), s)
    else (decodeTorrentHash resp.returnValue, s)

/-- The method `AddTorrentFile`. -/
def AddTorrentFile (env : Env) (fileName fileContentBase64 : GoString)
    (options : Option env.Options) (s : State) : Outcome GoString × State :=
  let args := RList.Add [] [Value.str fileName, Value.str fileContentBase64,
    Value.dict (env.toDictionary options s.client.v2daemon)]
  match Client.rpc env "core.add_torrent_file" args [] s with
  | (.error err, s) => (.ret GoString.empty (some err), s)
  | (.ok resp, s) =>
    if resp.IsError then (.ret GoString.empty (some (.rpc resp.RPCError)), s)
    else (decodeTorrentHash resp.returnValue, s)

/-- The loop of `RemoveTorrents`, lines 185-205, over the entries of the failed
list still to be read; `torrentErrors` holds the errors decoded so far. -/
def RemoveTorrents.loop (torrentErrors : Slice TorrentError) :
    List Value → Outcome (Slice TorrentError)
  | [] => .ret torrentErrors none
  | e :: rest =>
    match e with
    | .list failedEntry =>
      let failedTuple := failedEntry
      if failedTuple.length != 2 then .ret torrentErrors (some .ErrInvalidReturnValue)
      else
        match (failedTuple[0]? : Option Value), (failedTuple[1]? : Option Value) with
        | some (.bytes id), some (.bytes message) =>
          let torrentError : TorrentError := ⟨GoString.ofBytes id, GoString.ofBytes message⟩
          RemoveTorrents.loop (torrentErrors.append torrentError) rest
        | _, _ => .panicked
    | _ => .ret torrentErrors (some .ErrInvalidReturnValue)

/-- The decoding of a `RemoveTorrents` response, lines 175-207. -/
def RemoveTorrents.decode (vals : RList) : Outcome (Slice TorrentError) :=
  if vals.length != 1 then .ret .nil (some .ErrInvalidReturnValue)
  else
    match (vals[0]? : Option Value) with
    | some (.list failedList) => RemoveTorrents.loop .nil failedList
    | _ => .panicked

/-- The method `RemoveTorrents`. -/
def RemoveTorrents (env : Env) (ids : List GoString) (rmFiles : Bool) (s : State) :
    Outcome (Slice TorrentError) × State :=
  let args := RList.Add [] [Value.list (sliceToRencodeList ids), Value.bool rmFiles]
  match Client.rpc env "core.remove_torrents" args [] s with
  | (.error err, s) => (.ret .nil (some err), s)
  | (.ok resp, s) =>
    if resp.IsError then (.ret .nil (some (.rpc resp.RPCError)), s)
    else (RemoveTorrents.decode resp.returnValue, s)

/-- The method `RemoveTorrent`. -/
def RemoveTorrent (env : Env) (id : GoString) (rmFiles : Bool) (s : State) :
    Outcome Bool × State :=
  let args := RList.Add [] [Value.str id, Value.bool rmFiles]
  match Client.rpc env "core.remove_torrent" args [] s with
  | (.error err, s) => (.ret false (some err), s)
  | (.ok resp, s) =>
    if resp.IsError then (.ret false (some (.rpc resp.RPCError)), s)
    else
      let vals := resp.returnValue
      if vals.length != 1 then (.ret false (some .ErrInvalidReturnValue), s)
      else
        match (vals[0]? : Option Value) with
        | some (.bool success) => (.ret success none, s)
        | _ => (.panicked, s)

/-- The method `PauseTorrents`. -/
def PauseTorrents (env : Env) (ids : List GoString) (s : State) : Outcome Unit × State :=
  let args := RList.Add [] [Value.list (sliceToRencodeList ids)]
  let method := if !s.client.v2daemon then "core.pause_torrent" else "core.pause_torrents"
  match Client.rpc env method args [] s with
  | (.error err, s) => (.ret () (some err), s)
  | (.ok resp, s) =>
    if resp.IsError then (.ret () (some (.rpc resp.RPCError)), s)
    else (.ret () none, s) -- `return err`, where `err` is nil

/-- The method `ResumeTorrents`. -/
def ResumeTorrents (env : Env) (ids : List GoString) (s : State) : Outcome Unit × State :=
  let args := RList.Add [] [Value.list (sliceToRencodeList ids)]
  let method := if !s.client.v2daemon then "core.resume_torrent" else "core.resume_torrents"
  match Client.rpc env method args [] s with
  | (.error err, s) => (.ret () (some err), s)
  | (.ok resp, s) =>
    if resp.IsError then (.ret () (some (.rpc resp.RPCError)), s)
    else (.ret () none, s) -- `return err`, where `err` is nil

/-- The method `MoveStorage`. -/
def MoveStorage (env : Env) (torrentIDs : List GoString) (dest : GoString) (s : State) :
    Outcome Unit × State :=
  let args := RList.Add [] [Value.list (sliceToRencodeList torrentIDs), Value.str dest]
  match Client.rpc env "core.move_storage" args [] s with
  | (.error err, s) => (.ret () (some err), s)
  | (.ok resp, s) =>
    if resp.IsError then (.ret () (some (.rpc resp.RPCError)), s)
    else (.ret () none, s) -- `return err`, where `err` is nil

/-- The method `SetTorrentOptions`. -/
def SetTorrentOptions (env : Env) (id : GoString) (options : Option env.Options) (s : State) :
    Outcome Unit × State :=
  let args := RList.Add [] [Value.str id, Value.dict (env.toDictionary options s.client.v2daemon)]
  match Client.rpc env "core.set_torrent_options" args [] s with
  | (.error err, s) => (.ret () (some err), s)
  | (.ok resp, s) =>
    if resp.IsError then (.ret () (some (.rpc resp.RPCError)), s)
    else (.ret () none, s)

/-- The method `SetTorrentTracker`. -/
def SetTorrentTracker (env : Env) (id trackerURL : GoString) (s : State) :
    Outcome Unit × State :=
  let tracker := Dictionary.Add [] (Value.str (GoString.lit "url")) (Value.str trackerURL)
  let tracker := Dictionary.Add tracker (Value.str (GoString.lit "tier")) (Value.int 0)
  let trackers := RList.Add [] [Value.dict tracker]
  let args := RList.Add [] [Value.str id, Value.list trackers]
  match Client.rpc env "core.set_torrent_trackers" args [] s with
  | (.error err, s) => (.ret () (some err), s)
  | (.ok resp, s) =>
    if resp.IsError then (.ret () (some (.rpc resp.RPCError)), s)
    else (.ret () none, s)

/-- The loop of `KnownAccounts`, lines 355-367, over the users still to be read. -/
def KnownAccounts.loop (env : Env) (accounts : Slice env.Account) :
    List Value → Outcome (Slice env.Account)
  | [] => .ret accounts none
  | u :: rest =>
    match u with
    | .dict dict =>
      match env.fromDictionary dict with
      | .error err => .ret .nil (some err)
      | .ok a => KnownAccounts.loop env (accounts.append a) rest
    | _ => .ret .nil (some .ErrInvalidDictionaryResponse)

/-- The method `KnownAccounts`. -/
def KnownAccounts (env : Env) (s : State) : Outcome (Slice env.Account) × State :=
  match Client.rpc env "core.get_known_accounts" [] [] s with
  | (.error err, s) => (.ret .nil (some err), s)
  | (.ok resp, s) =>
    if resp.IsError then (.ret .nil (some (.rpc resp.RPCError)), s)
    else
      match env.scanList resp.returnValue with
      | .error err => (.ret .nil (some err), s)
      | .ok users => (KnownAccounts.loop env .nil users, s)

/-- The decoding of an account-operation response, lines 384-390 (and 404-410,
427-433): the success flag is the first payload value. -/
def decodeSuccess (vals : RList) : Outcome Bool :=
  if vals.length == 0 then .ret false (some .ErrInvalidReturnValue)
  else
    match (vals[0]? : Option Value) with
    | some (.bool success) => .ret success none
    | _ => .panicked

/-- The method `CreateAccount`. -/
def CreateAccount (env : Env) (account : env.Account) (s : State) : Outcome Bool × State :=
  match Client.rpc env "core.create_account" (env.toList account) [] s with
  | (.error err, s) => (.ret false (some err), s)
  | (.ok resp, s) =>
    if resp.IsError then (.ret false (some (.rpc resp.RPCError)), s)
    else (decodeSuccess resp.returnValue, s)

/-- The method `UpdateAccount`. -/
def UpdateAccount (env : Env) (account : env.Account) (s : State) : Outcome Bool × State :=
  match Client.rpc env "core.update_account" (env.toList account) [] s with
  | (.error err, s) => (.ret false (some err), s)
  | (.ok resp, s) =>
    if resp.IsError then (.ret false (some (.rpc resp.RPCError)), s)
    else (decodeSuccess resp.returnValue, s)

/-- The method `RemoveAccount`. -/
def RemoveAccount (env : Env) (username : GoString) (s : State) : Outcome Bool × State :=
  let args := RList.Add [] [Value.str username]
  match Client.rpc env "core.remove_account" args [] s with
  | (.error err, s) => (.ret false (some err), s)
  | (.ok resp, s) =>
    if resp.IsError then (.ret false (some (.rpc resp.RPCError)), s)
    else (decodeSuccess resp.returnValue, s)

/-- The method `ForceReannounce`. -/
def ForceReannounce (env : Env) (ids : List GoString) (s : State) : Outcome Unit × State :=
  let args := RList.Add [] [Value.list (sliceToRencodeList ids)]
  match Client.rpc env "core.force_reannounce" args [] s with
  | (.error err, s) => (.ret () (some err), s)
  | (.ok resp, s) =>
    if resp.IsError then (.ret () (some (.rpc resp.RPCError)), s)
    else (.ret () none, s)

/-- The method `EnablePlugin`. -/
def EnablePlugin (env : Env) (name : GoString) (s : State) : Outcome Unit × State :=
  let args := RList.Add [] [Value.str name]
  match Client.rpc env "core.enable_plugin" args [] s with
  | (.error err, s) => (.ret () (some err), s)
  | (.ok resp, s) =>
    if resp.IsError then (.ret () (some (.rpc resp.RPCError)), s)
    else (.ret () none, s)

/-- The method `DisablePlugin`. -/
def DisablePlugin (env : Env) (name : GoString) (s : State) : Outcome Unit × State :=
  let args := RList.Add [] [Value.str name]
  match Client.rpc env "core.disable_plugin" args [] s with
  | (.error err, s) => (.ret () (some err), s)
  | (.ok resp, s) =>
    if resp.IsError then (.ret () (some (.rpc resp.RPCError)), s)
    else (.ret () none, s)

/-- The method `TestListenPort`. -/
def TestListenPort (env : Env) (s : State) : Outcome Bool × State :=
  match Client.rpc env "core.test_listen_port" [] [] s with
  | (.error err, s) => (.ret false (some err), s)
  | (.ok resp, s) =>
    if resp.IsError then (.ret false (some (.rpc resp.RPCError)), s)
    else
      let vals := resp.returnValue
      if vals.length == 0 then (.ret false (some .ErrInvalidReturnValue), s)
      else
        match (vals[0]? : Option Value) with
        | none => (.panicked, s)
        | some (.bool v) => (.ret v none, s)
        | some first =>
          let s := match s.client.settings.Logger with
            | some logger => logger.Printf "TestListenPort returned %v" [first] s
            | none => s
          (.ret false (some .ErrInvalidReturnValue), s)

/-- The method `GetListenPort`. -/
def GetListenPort (env : Env) (s : State) : Outcome Nat × State :=
  match Client.rpc env "core.get_listen_port" [] [] s with
  | (.error err, s) => (.ret 0 (some err), s)
  | (.ok resp, s) =>
    if resp.IsError then (.ret 0 (some (.rpc resp.RPCError)), s)
    else
      match env.scanInt32 resp.returnValue with
      | .error err => (.ret 0 (some err), s)
      | .ok port => (.ret (uint16 port) none, s)

/-- Modelled from the spec: the decoding of the success shape "list of strings" of the
interface table, each element a byte-string; a shape mismatch is "a defined failure"
(`none`), per the scalar/collection decoders of the system overview. -/
def decodeStrings : List Value → Option (List GoString)
  | [] => some []
  | .bytes b :: rest =>
    match decodeStrings rest with
    | some strings => some (GoString.ofBytes b :: strings)
    | none => none
  | _ :: _ => none

/-- Modelled from the spec: the helper `rpcWithStringsResult`, declared outside
methods.go. Following the spec's control flow ("method builds argument container, Invoker
performs the call, Response Envelope inspected, on error daemon error surfaced verbatim,
on success the decoder shapes the payload"), with no retry (4.1), the two-step check
(4.2) and the table's shape for the plugin lists (positional arguments `[]`, success
shape "list of strings"): one transport invocation of `method` with no positional and no
keyword arguments, then the scan of the payload into a list of strings, a shape mismatch
being surfaced as the shape error. -/
def Client.rpcWithStringsResult (env : Env) (method : String) (s : State) :
    Outcome (Slice GoString) × State :=
  match Client.rpc env method [] [] s with
  | (.error err, s) => (.ret .nil (some err), s)
  | (.ok resp, s) =>
    if resp.IsError then (.ret .nil (some (.rpc resp.RPCError)), s)
    else
      match env.scanList resp.returnValue with
      | .error err => (.ret .nil (some err), s)
      | .ok list =>
        match decodeStrings list with
        | some strings => (.ret (.mk strings) none, s)
        | none => (.ret .nil (some .ErrInvalidReturnValue), s)

/-- The method `SessionState`. -/
def SessionState (env : Env) (s : State) : Outcome (Slice GoString) × State :=
  Client.rpcWithStringsResult env "core.get_session_state" s

/-- The method `GetEnabledPlugins`. -/
def GetEnabledPlugins (env : Env) (s : State) : Outcome (Slice GoString) × State :=
  Client.rpcWithStringsResult env "core.get_enabled_plugins" s

/-- The method `GetAvailablePlugins`. -/
def GetAvailablePlugins (env : Env) (s : State) : Outcome (Slice GoString) × State :=
  Client.rpcWithStringsResult env "core.get_available_plugins" s

/-! ## Specification predicates and reference collaborators -/

/-- The two-step envelope check of a method that invokes the transport with `call`,
has zero result `zero` and ends in `out`: a transport failure is returned unchanged,
and otherwise a daemon error is returned as the envelope's `RPCError`, whatever the
payload holds; in both cases with the zero result, and never as a shape error. -/
def TwoStepCheck {α : Type} (env : Env) (call : Call) (zero : α) (out : Outcome α) : Prop :=
  (∀ e, env.rpc call = .error e → out = .ret zero (some e)) ∧
  (∀ resp, env.rpc call = .ok resp → resp.IsError = true →
    out = .ret zero (some (.rpc resp.RPCError)) ∧
    (∀ v, out ≠ .ret v (some .ErrInvalidReturnValue)) ∧
    (∀ v, out ≠ .ret v (some .ErrInvalidDictionaryResponse)))

/-- Modelled from the spec: the external scan primitive, "a generic scan into typed
value decoding primitive that extracts a given container's payload into a target
shape, failing if the shape does not match", for one integer target of range
`lo..hi`. -/
def scanInt (lo hi : Int) : RList → Except Error Int
  | [.int n] => if lo ≤ n ∧ n ≤ hi then .ok n else .error (.external "scan: integer out of range")
  | _ => .error (.external "scan: shape mismatch")

/-- Modelled from the spec: the external scan primitive for one string target. -/
def scanBytes : RList → Except Error GoString
  | [.bytes b] => .ok (GoString.ofBytes b)
  | _ => .error (.external "scan: shape mismatch")

/-- Modelled from the spec: the external scan primitive for one list target. -/
def scanSeq : RList → Except Error RList
  | [.list vs] => .ok vs
  | _ => .error (.external "scan: shape mismatch")

/-- An environment whose transport gives `reply` to every call, with the reference
scan primitives and trivial option and account codecs. -/
def Env.answering (reply : Except Error DelugeResponse) : Env where
  Options := Unit
  Account := Unit
  rpc := fun _ => reply
  scanInt64 := scanInt (-9223372036854775808) 9223372036854775807
  scanInt32 := scanInt (-2147483648) 2147483647
  scanString := scanBytes
  scanList := scanSeq
  toDictionary := fun _ _ => []
  toList := fun _ => []
  fromDictionary := fun _ => .ok ()

/-- A successful response envelope with payload `vals`. -/
def DelugeResponse.success (vals : RList) : DelugeResponse := ⟨false, ⟨GoString.empty⟩, vals⟩

/-- A daemon-error response envelope with error `e` and payload `vals`. -/
def DelugeResponse.failure (e : Deluge.RPCError) (vals : RList) : DelugeResponse := ⟨true, e, vals⟩

/-- A fresh state of a client: nothing invoked, nothing logged. -/
def State.init (c : Client) : State := ⟨c, [], []⟩

/-- The transport answers `call` with a successful (non-error) response envelope
whose payload is `vals`. -/
def Succeeds (env : Env) (call : Call) (vals : RList) : Prop :=
  ∃ resp, env.rpc call = .ok resp ∧ resp.IsError = false ∧ resp.returnValue = vals

/-- The transport invocation of `RemoveTorrents`. -/
def removeTorrentsCall (ids : List GoString) (rmFiles : Bool) : Call :=
  ⟨"core.remove_torrents", [.list (sliceToRencodeList ids), .bool rmFiles], []⟩

/-- A well-formed failure tuple of the daemon: a two-element sequence of byte-strings. -/
def failureTuple (p : List UInt8 × List UInt8) : Value := .list [.bytes p.1, .bytes p.2]

/-- The `TorrentError` that a failure tuple `(id, message)` stands for. -/
def TorrentError.ofTuple (p : List UInt8 × List UInt8) : TorrentError :=
  ⟨GoString.ofBytes p.1, GoString.ofBytes p.2⟩

/-- An entry that is not exactly two byte-string elements. -/
def Malformed (e : Value) : Prop := ¬ ∃ id message, e = .list [.bytes id, .bytes message]

/-- The slice built by appending `xs` one by one to `acc`. -/
def Slice.appendAll {α : Type} (acc : Slice α) (xs : List α) : Slice α :=
  xs.foldl Slice.append acc

/-- The decoded hash of an add-torrent response with payload `vals`: an absent hash
(first value nil) gives the empty string and a nil error, a byte-string hash `h` gives
the string of exactly the bytes of `h` and a nil error. -/
def HashDecoded (vals : RList) (out : Outcome GoString) : Prop :=
  (∀ rest, vals = .nil :: rest → out = .ret GoString.empty none ∧ GoString.empty.bytes = []) ∧
  (∀ h rest, vals = .bytes h :: rest →
    out = .ret (GoString.ofBytes h) none ∧ (GoString.ofBytes h).bytes = h)

/-- The exact arity check of a method with zero result `zero` that ends in `out` on the
payload `vals`: any number of values other than 1 gives `ErrInvalidReturnValue`. -/
def ArityExactlyOne {α : Type} (vals : RList) (zero : α) (out : Outcome α) : Prop :=
  vals.length ≠ 1 → out = .ret zero (some .ErrInvalidReturnValue)

/-- The arity check of a method that only rejects the empty payload: no value gives
`ErrInvalidReturnValue`, and otherwise the outcome is `decodeOne` of the first value,
whatever follows it. -/
def ArityAtLeastOne {α : Type} (vals : RList) (zero : α) (decodeOne : Value → Outcome α)
    (out : Outcome α) : Prop :=
  (vals.length = 0 → out = .ret zero (some .ErrInvalidReturnValue)) ∧
  (∀ first rest, vals = first :: rest → out = decodeOne first)

/-- A run of a method from state `s` to state `t` makes exactly one transport
invocation: the calls of `t` are those of `s` followed by the single call of wire
method `method` with positional arguments `args` and an empty keyword dictionary. -/
def InvokesOnce (s t : State) (method : String) (args : RList) : Prop :=
  t.calls = s.calls ++ [⟨method, args, []⟩]

/-! ## Theorems -/

/-- C1: every one of the 21 operations of methods.go performs the two-step check:
when the transport call fails with `e` the operation returns exactly `e` with the
zero/nil result, and otherwise when the envelope signals a daemon error it returns
exactly the envelope's `RPCError` with the zero/nil result, whatever the payload
contains, never a shape error. -/
theorem two_step_check_all_methods (env : Env) (s : State) :
    (∀ path, TwoStepCheck env ⟨"core.get_free_space", [.str path], []⟩ 0
      (GetFreeSpace env path s).1) ∧
    TwoStepCheck env ⟨"core.get_libtorrent_version", [], []⟩ GoString.empty
      (GetLibtorrentVersion env s).1 ∧
    (∀ magnetURI options, TwoStepCheck env
      ⟨"core.add_torrent_magnet",
        [.str magnetURI, .dict (env.toDictionary options s.client.v2daemon)], []⟩
      GoString.empty (AddTorrentMagnet env magnetURI options s).1) ∧
    (∀ url options, TwoStepCheck env
      ⟨"core.add_torrent_url",
        [.str url, .dict (env.toDictionary options s.client.v2daemon)], []⟩
      GoString.empty (AddTorrentURL env url options s).1) ∧
    (∀ fileName content options, TwoStepCheck env
      ⟨"core.add_torrent_file",
        [.str fileName, .str content, .dict (env.toDictionary options s.client.v2daemon)], []⟩
      GoString.empty (AddTorrentFile env fileName content options s).1) ∧
    (∀ ids rmFiles, TwoStepCheck env
      ⟨"core.remove_torrents", [.list (sliceToRencodeList ids), .bool rmFiles], []⟩
      Slice.nil (RemoveTorrents env ids rmFiles s).1) ∧
    (∀ id rmFiles, TwoStepCheck env
      ⟨"core.remove_torrent", [.str id, .bool rmFiles], []⟩
      false (RemoveTorrent env id rmFiles s).1) ∧
    (∀ ids, TwoStepCheck env
      ⟨if s.client.v2daemon then "core.pause_torrents" else "core.pause_torrent",
        [.list (sliceToRencodeList ids)], []⟩
      () (PauseTorrents env ids s).1) ∧
    (∀ ids, TwoStepCheck env
      ⟨if s.client.v2daemon then "core.resume_torrents" else "core.resume_torrent",
        [.list (sliceToRencodeList ids)], []⟩
      () (ResumeTorrents env ids s).1) ∧
    (∀ torrentIDs dest, TwoStepCheck env
      ⟨"core.move_storage", [.list (sliceToRencodeList torrentIDs), .str dest], []⟩
      () (MoveStorage env torrentIDs dest s).1) ∧
    (∀ id options, TwoStepCheck env
      ⟨"core.set_torrent_options",
        [.str id, .dict (env.toDictionary options s.client.v2daemon)], []⟩
      () (SetTorrentOptions env id options s).1) ∧
    (∀ id trackerURL, TwoStepCheck env
      ⟨"core.set_torrent_trackers",
        [.str id, .list [.dict [(.str (GoString.lit "url"), .str trackerURL),
          (.str (GoString.lit "tier"), .int 0)]]], []⟩
      () (SetTorrentTracker env id trackerURL s).1) ∧
    TwoStepCheck env ⟨"core.get_known_accounts", [], []⟩ Slice.nil (KnownAccounts env s).1 ∧
    (∀ account, TwoStepCheck env ⟨"core.create_account", env.toList account, []⟩
      false (CreateAccount env account s).1) ∧
    (∀ account, TwoStepCheck env ⟨"core.update_account", env.toList account, []⟩
      false (UpdateAccount env account s).1) ∧
    (∀ username, TwoStepCheck env ⟨"core.remove_account", [.str username], []⟩
      false (RemoveAccount env username s).1) ∧
    (∀ ids, TwoStepCheck env ⟨"core.force_reannounce", [.list (sliceToRencodeList ids)], []⟩
      () (ForceReannounce env ids s).1) ∧
    (∀ name, TwoStepCheck env ⟨"core.enable_plugin", [.str name], []⟩
      () (EnablePlugin env name s).1) ∧
    (∀ name, TwoStepCheck env ⟨"core.disable_plugin", [.str name], []⟩
      () (DisablePlugin env name s).1) ∧
    TwoStepCheck env ⟨"core.test_listen_port", [], []⟩ false (TestListenPort env s).1 ∧
    TwoStepCheck env ⟨"core.get_listen_port", [], []⟩ 0 (GetListenPort env s).1 := by
  refine ⟨?_, ?_, ?_, ?_, ?_, ?_, ?_, ?_, ?_, ?_, ?_, ?_, ?_, ?_, ?_, ?_, ?_, ?_, ?_, ?_, ?_⟩
  all_goals
    intros
    cases hv : s.client.v2daemon <;> constructor
  all_goals
    first
    | (intro e h
       try simp only [hv, Bool.false_eq_true, if_false, if_true] at h
       simp [GetFreeSpace, GetLibtorrentVersion, AddTorrentMagnet, AddTorrentURL,
         AddTorrentFile, RemoveTorrents, RemoveTorrent, PauseTorrents, ResumeTorrents,
         MoveStorage, SetTorrentOptions, SetTorrentTracker, KnownAccounts, CreateAccount,
         UpdateAccount, RemoveAccount, ForceReannounce, EnablePlugin, DisablePlugin,
         TestListenPort, GetListenPort, Client.rpc, RList.Add, Dictionary.Add, hv, h]
       done)
    | (intro resp h hE
       try simp only [hv, Bool.false_eq_true, if_false, if_true] at h
       simp [GetFreeSpace, GetLibtorrentVersion, AddTorrentMagnet, AddTorrentURL,
         AddTorrentFile, RemoveTorrents, RemoveTorrent, PauseTorrents, ResumeTorrents,
         MoveStorage, SetTorrentOptions, SetTorrentTracker, KnownAccounts, CreateAccount,
         UpdateAccount, RemoveAccount, ForceReannounce, EnablePlugin, DisablePlugin,
         TestListenPort, GetListenPort, Client.rpc, RList.Add, Dictionary.Add, hv, h, hE])

/-- Witness of C1: a daemon error carrying a payload is returned verbatim by
`RemoveTorrents`, and a transport failure is returned unchanged by `TestListenPort`. -/
theorem two_step_check_all_methods_witness :
    (RemoveTorrents (Env.answering (.ok (DelugeResponse.failure ⟨⟨[1]⟩⟩ [.int 7]))) [] false
      (State.init ⟨true, ⟨none⟩⟩)).1 = .ret .nil (some (.rpc ⟨⟨[1]⟩⟩)) ∧
    (TestListenPort (Env.answering (.error (.external "timeout")))
      (State.init ⟨false, ⟨none⟩⟩)).1 = .ret false (some (.external "timeout")) :=
  ⟨(((two_step_check_all_methods
      (Env.answering (.ok (DelugeResponse.failure ⟨⟨[1]⟩⟩ [.int 7])))
      (State.init ⟨true, ⟨none⟩⟩)).2.2.2.2.2.1 [] false).2 _ rfl rfl).1,
   (two_step_check_all_methods (Env.answering (.error (.external "timeout")))
      (State.init ⟨false, ⟨none⟩⟩)).2.2.2.2.2.2.2.2.2.2.2.2.2.2.2.2.2.2.2.1.1 _ rfl⟩

/-! ### Batch partial-failure aggregation -/

/-- The elements after `append(s, x)`. -/
theorem Slice.toList_append {α : Type} (s : Slice α) (x : α) :
    (s.append x).toList = s.toList ++ [x] := rfl

/-- The elements after appending `xs` one by one. -/
theorem Slice.toList_appendAll {α : Type} (xs : List α) (acc : Slice α) :
    (acc.appendAll xs).toList = acc.toList ++ xs := by
  induction xs generalizing acc with
  | nil => simp [Slice.appendAll]
  | cons x xs ih =>
    have h := ih (acc.append x)
    simp only [Slice.appendAll, List.foldl_cons] at h ⊢
    rw [h, Slice.toList_append]
    simp

/-- The loop reads a well-formed tuple by appending its error and going on. -/
theorem RemoveTorrents.loop_cons_tuple (acc : Slice TorrentError)
    (p : List UInt8 × List UInt8) (rest : List Value) :
    RemoveTorrents.loop acc (failureTuple p :: rest) =
      RemoveTorrents.loop (acc.append (TorrentError.ofTuple p)) rest := by
  simp [RemoveTorrents.loop, failureTuple, TorrentError.ofTuple]

/-- The loop reads a prefix of well-formed tuples by appending their errors in order. -/
theorem RemoveTorrents.loop_tuples (pairs : List (List UInt8 × List UInt8))
    (acc : Slice TorrentError) (rest : List Value) :
    RemoveTorrents.loop acc (pairs.map failureTuple ++ rest) =
      RemoveTorrents.loop (acc.appendAll (pairs.map TorrentError.ofTuple)) rest := by
  induction pairs generalizing acc with
  | nil => simp [Slice.appendAll]
  | cons p pairs ih =>
    simp only [List.map_cons, List.cons_append, RemoveTorrents.loop_cons_tuple]
    rw [ih]
    simp [Slice.appendAll]

/-- On a successful response `RemoveTorrents` returns what the decoding of the payload gives. -/
theorem RemoveTorrents_of_succeeds (env : Env) (ids : List GoString) (rmFiles : Bool)
    (s : State) (vals : RList) (h : Succeeds env (removeTorrentsCall ids rmFiles) vals) :
    (RemoveTorrents env ids rmFiles s).1 = RemoveTorrents.decode vals := by
  obtain ⟨resp, hrpc, hE, hv⟩ := h
  simp only [removeTorrentsCall] at hrpc
  simp [RemoveTorrents, Client.rpc, RList.Add, hrpc, hE, hv]

/-- C2: on a successful response whose payload holds exactly one value, a sequence of
n well-formed failure tuples (id_i, msg_i), `RemoveTorrents` returns a nil error and a
list of exactly n `TorrentError` values, the i-th being `TorrentError{id_i, msg_i}`,
in the order of the daemon's sequence. -/
theorem RemoveTorrents_decodes_all_tuples (env : Env) (ids : List GoString) (rmFiles : Bool)
    (s : State) (pairs : List (List UInt8 × List UInt8))
    (h : Succeeds env (removeTorrentsCall ids rmFiles) [.list (pairs.map failureTuple)]) :
    ∃ errs, (RemoveTorrents env ids rmFiles s).1 = .ret errs none ∧
      errs.len = pairs.length ∧
      errs.toList = pairs.map (fun p => ⟨GoString.ofBytes p.1, GoString.ofBytes p.2⟩) := by
  refine ⟨Slice.appendAll .nil (pairs.map TorrentError.ofTuple), ?_, ?_, ?_⟩
  · rw [RemoveTorrents_of_succeeds env ids rmFiles s _ h]
    have hl := RemoveTorrents.loop_tuples pairs .nil []
    simp only [List.append_nil] at hl
    simp [RemoveTorrents.decode, hl, RemoveTorrents.loop]
  · rw [Slice.len, Slice.toList_appendAll]
    simp [Slice.toList]
  · rw [Slice.toList_appendAll]
    simp only [Slice.toList, List.nil_append]
    rfl

/-- Witness of C2: two failure tuples are decoded in order. -/
theorem RemoveTorrents_decodes_all_tuples_witness :
    ∃ errs, (RemoveTorrents
        (Env.answering (.ok (DelugeResponse.success
          [.list ([([97], [120]), ([98], [121])].map failureTuple)])))
        [⟨[97]⟩, ⟨[98]⟩] true (State.init ⟨true, ⟨none⟩⟩)).1 = .ret errs none ∧
      errs.len = 2 ∧
      errs.toList = [⟨⟨[97]⟩, ⟨[120]⟩⟩, ⟨⟨[98]⟩, ⟨[121]⟩⟩] :=
  RemoveTorrents_decodes_all_tuples
    (Env.answering (.ok (DelugeResponse.success
      [.list ([([97], [120]), ([98], [121])].map failureTuple)])))
    [⟨[97]⟩, ⟨[98]⟩] true (State.init ⟨true, ⟨none⟩⟩) [([97], [120]), ([98], [121])]
    ⟨_, rfl, rfl, rfl⟩

/-- The part of the malformed-entry rule that the loop implements: an entry that is
not a sequence, or a sequence of a length other than 2, ends the decoding with the
errors read so far and `ErrInvalidReturnValue`. -/
theorem RemoveTorrents_shape_error_on_malformed_entry (env : Env) (ids : List GoString)
    (rmFiles : Bool) (s : State) (pairs : List (List UInt8 × List UInt8)) (bad : Value)
    (rest : List Value)
    (hbad : ∀ vs, bad = .list vs → vs.length ≠ 2)
    (h : Succeeds env (removeTorrentsCall ids rmFiles)
      [.list (pairs.map failureTuple ++ bad :: rest)]) :
    ∃ errs, (RemoveTorrents env ids rmFiles s).1 = .ret errs (some .ErrInvalidReturnValue) ∧
      errs.toList = pairs.map TorrentError.ofTuple := by
  refine ⟨Slice.appendAll .nil (pairs.map TorrentError.ofTuple), ?_, ?_⟩
  · rw [RemoveTorrents_of_succeeds env ids rmFiles s _ h]
    simp only [RemoveTorrents.decode, List.length_singleton, bne_self_eq_false,
      Bool.false_eq_true, if_false, List.getElem?_cons_zero]
    rw [RemoveTorrents.loop_tuples]
    cases bad with
    | list vs =>
      have hvs := hbad vs rfl
      simp [RemoveTorrents.loop, hvs]
    | _ => simp [RemoveTorrents.loop]
  · rw [Slice.toList_appendAll]
    simp [Slice.toList]

/-- C3: after k well-formed tuples, an entry of two elements at least one of which is not
a byte-string is malformed, yet `RemoveTorrents` does not return the k decoded errors with
`ErrInvalidReturnValue`: the unchecked assertion `failedTuple[i].([]byte)` panics. -/
theorem RemoveTorrents_panics_on_non_bytes_element (env : Env) (ids : List GoString)
    (rmFiles : Bool) (s : State) (pairs : List (List UInt8 × List UInt8)) (a b : Value)
    (rest : List Value)
    (hbad : ¬ ∃ id message, a = .bytes id ∧ b = .bytes message)
    (h : Succeeds env (removeTorrentsCall ids rmFiles)
      [.list (pairs.map failureTuple ++ .list [a, b] :: rest)]) :
    Malformed (.list [a, b]) ∧ (RemoveTorrents env ids rmFiles s).1 = .panicked := by
  constructor
  · rintro ⟨id, message, heq⟩
    apply hbad
    refine ⟨id, message, ?_⟩
    simpa using heq
  · rw [RemoveTorrents_of_succeeds env ids rmFiles s _ h]
    simp only [RemoveTorrents.decode, List.length_singleton, bne_self_eq_false,
      Bool.false_eq_true, if_false, List.getElem?_cons_zero]
    rw [RemoveTorrents.loop_tuples]
    cases a <;> cases b <;> simp [RemoveTorrents.loop] at hbad ⊢

/-- Failing input of C3: the daemon answers with one well-formed tuple followed by the
tuple `("b", 1)`; the call panics instead of returning the first error and a shape error. -/
theorem RemoveTorrents_panics_on_non_bytes_element_witness :
    Malformed (Value.list [Value.bytes [98], Value.int 1]) ∧
    (RemoveTorrents
      (Env.answering (.ok (DelugeResponse.success
        [.list ([([97], [120])].map failureTuple ++ [Value.list [Value.bytes [98], Value.int 1]])])))
      [⟨[97]⟩, ⟨[98]⟩] false (State.init ⟨true, ⟨none⟩⟩)).1 = .panicked :=
  RemoveTorrents_panics_on_non_bytes_element
    (Env.answering (.ok (DelugeResponse.success
      [.list ([([97], [120])].map failureTuple ++ [Value.list [Value.bytes [98], Value.int 1]])])))
    [⟨[97]⟩, ⟨[98]⟩] false (State.init ⟨true, ⟨none⟩⟩) [([97], [120])] (Value.bytes [98]) (Value.int 1) []
    (by simp) ⟨_, rfl, rfl, rfl⟩

/-- Counterexample to C4 as stated: when the daemon reports no failed id (the payload is
one empty sequence), the returned list is the nil slice, not a non-nil empty list. -/
theorem RemoveTorrents_empty_list_not_non_nil :
    ¬ ∃ errs, (RemoveTorrents (Env.answering (.ok (DelugeResponse.success [.list []])))
        [⟨[97]⟩] false (State.init ⟨true, ⟨none⟩⟩)).1 = .ret errs none ∧
      errs.len = 0 ∧ errs.isNil = false := by
  rintro ⟨errs, h, -, hnil⟩
  have h2 : (RemoveTorrents (Env.answering (.ok (DelugeResponse.success [.list []])))
      [⟨[97]⟩] false (State.init ⟨true, ⟨none⟩⟩)).1 = .ret .nil none := rfl
  rw [h2] at h
  cases h
  simp [Slice.isNil] at hnil

/-- C4 (amended): on a successful response whose single payload value is an empty
sequence, `RemoveTorrents` returns a nil overall error and a zero-length error list;
that list is the nil slice, the same list value that the failure paths return, so the
success is told apart by the nil overall error only. -/
theorem RemoveTorrents_empty_list_is_nil (env : Env) (ids : List GoString) (rmFiles : Bool)
    (s : State) (h : Succeeds env (removeTorrentsCall ids rmFiles) [.list []]) :
    (RemoveTorrents env ids rmFiles s).1 = .ret .nil none ∧
    (Slice.nil : Slice TorrentError).len = 0 ∧
    (Slice.nil : Slice TorrentError).isNil = true := by
  refine ⟨?_, rfl, rfl⟩
  rw [RemoveTorrents_of_succeeds env ids rmFiles s _ h]
  simp [RemoveTorrents.decode, RemoveTorrents.loop]

/-- Witness of C4 (amended): no failed id, nil list and nil error. -/
theorem RemoveTorrents_empty_list_is_nil_witness :
    (RemoveTorrents (Env.answering (.ok (DelugeResponse.success [.list []])))
      [⟨[97]⟩] false (State.init ⟨true, ⟨none⟩⟩)).1 = .ret .nil none ∧
    (Slice.nil : Slice TorrentError).len = 0 ∧
    (Slice.nil : Slice TorrentError).isNil = true :=
  RemoveTorrents_empty_list_is_nil (Env.answering (.ok (DelugeResponse.success [.list []])))
    [⟨[97]⟩] false (State.init ⟨true, ⟨none⟩⟩) ⟨_, rfl, rfl, rfl⟩

/-! ### Add-torrent hash decoding -/

/-- On a successful response `AddTorrentMagnet` returns what the hash decoding gives. -/
theorem AddTorrentMagnet_of_succeeds (env : Env) (magnetURI : GoString)
    (options : Option env.Options) (s : State) (vals : RList)
    (h : Succeeds env ⟨"core.add_torrent_magnet",
      [.str magnetURI, .dict (env.toDictionary options s.client.v2daemon)], []⟩ vals) :
    (AddTorrentMagnet env magnetURI options s).1 = decodeTorrentHash vals := by
  obtain ⟨resp, hrpc, hE, hv⟩ := h
  simp [AddTorrentMagnet, Client.rpc, RList.Add, hrpc, hE, hv]

/-- On a successful response `AddTorrentURL` returns what the hash decoding gives. -/
theorem AddTorrentURL_of_succeeds (env : Env) (url : GoString)
    (options : Option env.Options) (s : State) (vals : RList)
    (h : Succeeds env ⟨"core.add_torrent_url",
      [.str url, .dict (env.toDictionary options s.client.v2daemon)], []⟩ vals) :
    (AddTorrentURL env url options s).1 = decodeTorrentHash vals := by
  obtain ⟨resp, hrpc, hE, hv⟩ := h
  simp [AddTorrentURL, Client.rpc, RList.Add, hrpc, hE, hv]

/-- On a successful response `AddTorrentFile` returns what the hash decoding gives. -/
theorem AddTorrentFile_of_succeeds (env : Env) (fileName content : GoString)
    (options : Option env.Options) (s : State) (vals : RList)
    (h : Succeeds env ⟨"core.add_torrent_file",
      [.str fileName, .str content, .dict (env.toDictionary options s.client.v2daemon)], []⟩
      vals) :
    (AddTorrentFile env fileName content options s).1 = decodeTorrentHash vals := by
  obtain ⟨resp, hrpc, hE, hv⟩ := h
  simp [AddTorrentFile, Client.rpc, RList.Add, hrpc, hE, hv]

/-- The hash decoding meets its specification on every payload. -/
theorem decodeTorrentHash_hashDecoded (vals : RList) :
    HashDecoded vals (decodeTorrentHash vals) := by
  constructor
  · intro rest h
    subst h
    simp [decodeTorrentHash, GoString.empty]
  · intro hash rest h
    subst h
    simp [decodeTorrentHash, GoString.ofBytes]

/-- C5: for each of `AddTorrentMagnet`, `AddTorrentURL` and `AddTorrentFile`, on every
successful response whose first payload value is nil (absent hash) the operation returns
the empty string and a nil error, never a shape error, and when the first payload value
is a byte-string h it returns the string with exactly the bytes of h and a nil error. -/
theorem AddTorrent_decodes_optional_hash (env : Env) (s : State)
    (options : Option env.Options) (vals : RList) :
    (∀ magnetURI, Succeeds env ⟨"core.add_torrent_magnet",
        [.str magnetURI, .dict (env.toDictionary options s.client.v2daemon)], []⟩ vals →
      HashDecoded vals (AddTorrentMagnet env magnetURI options s).1) ∧
    (∀ url, Succeeds env ⟨"core.add_torrent_url",
        [.str url, .dict (env.toDictionary options s.client.v2daemon)], []⟩ vals →
      HashDecoded vals (AddTorrentURL env url options s).1) ∧
    (∀ fileName content, Succeeds env ⟨"core.add_torrent_file",
        [.str fileName, .str content,
          .dict (env.toDictionary options s.client.v2daemon)], []⟩ vals →
      HashDecoded vals (AddTorrentFile env fileName content options s).1) := by
  refine ⟨?_, ?_, ?_⟩
  · intro magnetURI h
    rw [AddTorrentMagnet_of_succeeds env magnetURI options s vals h]
    exact decodeTorrentHash_hashDecoded vals
  · intro url h
    rw [AddTorrentURL_of_succeeds env url options s vals h]
    exact decodeTorrentHash_hashDecoded vals
  · intro fileName content h
    rw [AddTorrentFile_of_succeeds env fileName content options s vals h]
    exact decodeTorrentHash_hashDecoded vals

/-- Witness of C5: an absent hash gives the empty string and a nil error from
`AddTorrentMagnet`; a byte-string hash is returned byte for byte by `AddTorrentFile`. -/
theorem AddTorrent_decodes_optional_hash_witness :
    (AddTorrentMagnet (Env.answering (.ok (DelugeResponse.success [Value.nil])))
      ⟨[109]⟩ none (State.init ⟨true, ⟨none⟩⟩)).1 = .ret GoString.empty none ∧
    (AddTorrentFile (Env.answering (.ok (DelugeResponse.success [Value.bytes [99, 49]])))
      ⟨[102]⟩ ⟨[100]⟩ none (State.init ⟨false, ⟨none⟩⟩)).1 = .ret ⟨[99, 49]⟩ none :=
  ⟨(((AddTorrent_decodes_optional_hash
      (Env.answering (.ok (DelugeResponse.success [Value.nil])))
      (State.init ⟨true, ⟨none⟩⟩) none [Value.nil]).1 ⟨[109]⟩ ⟨_, rfl, rfl, rfl⟩).1 [] rfl).1,
   (((AddTorrent_decodes_optional_hash
      (Env.answering (.ok (DelugeResponse.success [Value.bytes [99, 49]])))
      (State.init ⟨false, ⟨none⟩⟩) none [Value.bytes [99, 49]]).2.2 ⟨[102]⟩ ⟨[100]⟩
      ⟨_, rfl, rfl, rfl⟩).2 [99, 49] [] rfl).1⟩

/-! ### Version dispatch -/

/-- C6: for every id, a legacy client (v2daemon false) pausing (resuming) that single id
invokes the transport once with the singular method name "core.pause_torrent"
("core.resume_torrent"); a v2 client (v2daemon true) invokes it once with the plural
name "core.pause_torrents" ("core.resume_torrents") and a positional argument list whose
only element is the one-element sequence [id]; the client, and so its flag, is unchanged. -/
theorem pause_resume_version_dispatch (env : Env) (s : State) (id : GoString) :
    (s.client.v2daemon = false →
      (PauseTorrents env [id] s).2.calls =
        s.calls ++ [⟨"core.pause_torrent", [.list [.str id]], []⟩] ∧
      (ResumeTorrents env [id] s).2.calls =
        s.calls ++ [⟨"core.resume_torrent", [.list [.str id]], []⟩]) ∧
    (s.client.v2daemon = true →
      (PauseTorrents env [id] s).2.calls =
        s.calls ++ [⟨"core.pause_torrents", [.list [.str id]], []⟩] ∧
      (ResumeTorrents env [id] s).2.calls =
        s.calls ++ [⟨"core.resume_torrents", [.list [.str id]], []⟩]) ∧
    (PauseTorrents env [id] s).2.client = s.client ∧
    (ResumeTorrents env [id] s).2.client = s.client ∧
    (PauseTorrents env [id] s).2.client.v2daemon = s.client.v2daemon ∧
    (ResumeTorrents env [id] s).2.client.v2daemon = s.client.v2daemon := by
  have hP : (PauseTorrents env [id] s).2 = { s with calls := s.calls ++
      [⟨if !s.client.v2daemon then "core.pause_torrent" else "core.pause_torrents",
        [.list [.str id]], []⟩] } := by
    simp only [PauseTorrents, Client.rpc]
    generalize env.rpc _ = r
    cases r with
    | error e => rfl
    | ok resp => cases hE : resp.IsError <;> simp [hE] <;> rfl
  have hR : (ResumeTorrents env [id] s).2 = { s with calls := s.calls ++
      [⟨if !s.client.v2daemon then "core.resume_torrent" else "core.resume_torrents",
        [.list [.str id]], []⟩] } := by
    simp only [ResumeTorrents, Client.rpc]
    generalize env.rpc _ = r
    cases r with
    | error e => rfl
    | ok resp => cases hE : resp.IsError <;> simp [hE] <;> rfl
  rw [hP, hR]
  refine ⟨?_, ?_, rfl, rfl, rfl, rfl⟩
  · intro hv
    simp [hv]
  · intro hv
    simp [hv]

/-- Witness of C6: a legacy client and a v2 client pausing the torrent "a". -/
theorem pause_resume_version_dispatch_witness :
    (PauseTorrents (Env.answering (.ok (DelugeResponse.success []))) [⟨[97]⟩]
      (State.init ⟨false, ⟨none⟩⟩)).2.calls =
        [(⟨"core.pause_torrent", [Value.list [Value.str ⟨[97]⟩]], []⟩ : Call)] ∧
    (PauseTorrents (Env.answering (.ok (DelugeResponse.success []))) [⟨[97]⟩]
      (State.init ⟨true, ⟨none⟩⟩)).2.calls =
        [(⟨"core.pause_torrents", [Value.list [Value.str ⟨[97]⟩]], []⟩ : Call)] :=
  ⟨((pause_resume_version_dispatch (Env.answering (.ok (DelugeResponse.success [])))
      (State.init ⟨false, ⟨none⟩⟩) ⟨[97]⟩).1 rfl).1,
   ((pause_resume_version_dispatch (Env.answering (.ok (DelugeResponse.success [])))
      (State.init ⟨true, ⟨none⟩⟩) ⟨[97]⟩).2.1 rfl).1⟩

/-! ### Listen port -/

/-- Counterexample to C7 as stated: the payload 65536 decodes to a 32-bit signed integer
out of the range 0..65535, and `GetListenPort` returns the port 0 with a nil error, not
a decode error. -/
theorem GetListenPort_out_of_range_no_error :
    (Env.answering (.ok (DelugeResponse.success [Value.int 65536]))).scanInt32
      [Value.int 65536] = .ok 65536 ∧
    ¬ ((0 : Int) ≤ 65536 ∧ (65536 : Int) ≤ 65535) ∧
    (GetListenPort (Env.answering (.ok (DelugeResponse.success [Value.int 65536])))
      (State.init ⟨true, ⟨none⟩⟩)).1 = .ret 0 none ∧
    ¬ ∃ v e, (GetListenPort (Env.answering (.ok (DelugeResponse.success [Value.int 65536])))
      (State.init ⟨true, ⟨none⟩⟩)).1 = .ret v (some e) := by
  have h : (GetListenPort (Env.answering (.ok (DelugeResponse.success [Value.int 65536])))
      (State.init ⟨true, ⟨none⟩⟩)).1 = .ret 0 none := by decide
  refine ⟨rfl, by decide, h, ?_⟩
  rintro ⟨v, e, he⟩
  rw [h] at he
  cases he

/-- C7 (amended): on a successful response whose payload decodes to a 32-bit signed
integer p, `GetListenPort` returns a nil error and the 16-bit unsigned value p mod 65536:
that is p itself when 0 <= p <= 65535, and for p out of that range it is the low 16 bits
of p, returned as a port number without any decode error. -/
theorem GetListenPort_returns_low_16_bits (env : Env) (s : State) (vals : RList) (p : Int)
    (h : Succeeds env ⟨"core.get_listen_port", [], []⟩ vals)
    (hscan : env.scanInt32 vals = .ok p) (_hp : isInt32 p) :
    ∃ port : Nat, (GetListenPort env s).1 = .ret port none ∧
      port < 65536 ∧ (port : Int) = p % 65536 ∧
      (0 ≤ p ∧ p ≤ 65535 → (port : Int) = p) ∧
      (¬ (0 ≤ p ∧ p ≤ 65535) → (port : Int) ≠ p) := by
  obtain ⟨resp, hrpc, hE, hv⟩ := h
  have hmod : (0 : Int) ≤ p % 65536 := Int.emod_nonneg p (by norm_num)
  have hlt : p % 65536 < 65536 := Int.emod_lt_of_pos p (by norm_num)
  have hcast : ((uint16 p : Nat) : Int) = p % 65536 := by
    simp [uint16, Int.toNat_of_nonneg hmod]
  refine ⟨uint16 p, ?_, ?_, hcast, ?_, ?_⟩
  · subst hv
    simp [GetListenPort, Client.rpc, hrpc, hE, hscan]
  · have : ((uint16 p : Nat) : Int) < 65536 := by rw [hcast]; exact hlt
    exact_mod_cast this
  · rintro ⟨h0, h1⟩
    rw [hcast]
    exact Int.emod_eq_of_lt h0 (by omega)
  · intro hout heq
    rw [hcast] at heq
    apply hout
    omega

/-- Witness of C7 (amended): the payload 6881 gives the port 6881. -/
theorem GetListenPort_returns_low_16_bits_witness :
    ∃ port : Nat, (GetListenPort (Env.answering (.ok (DelugeResponse.success [Value.int 6881])))
        (State.init ⟨true, ⟨none⟩⟩)).1 = .ret port none ∧
      port < 65536 ∧ (port : Int) = 6881 % 65536 ∧
      ((0 : Int) ≤ 6881 ∧ (6881 : Int) ≤ 65535 → (port : Int) = 6881) ∧
      (¬ ((0 : Int) ≤ 6881 ∧ (6881 : Int) ≤ 65535) → (port : Int) ≠ 6881) :=
  GetListenPort_returns_low_16_bits
    (Env.answering (.ok (DelugeResponse.success [Value.int 6881])))
    (State.init ⟨true, ⟨none⟩⟩) [Value.int 6881] 6881 ⟨_, rfl, rfl, rfl⟩ rfl
    (by unfold isInt32; decide)

/-- C8: on a successful response `TestListenPort` returns (b, nil) if and only if the
first payload value is the boolean b, and on every payload that is not a boolean (empty
payload, nil, a list, any other first value) it returns false with the shape error
`ErrInvalidReturnValue`, never a successful false. -/
theorem TestListenPort_bool_or_shape_error (env : Env) (s : State) (vals : RList)
    (h : Succeeds env ⟨"core.test_listen_port", [], []⟩ vals) :
    (∀ b, (TestListenPort env s).1 = .ret b none ↔ ∃ rest, vals = .bool b :: rest) ∧
    ((¬ ∃ b rest, vals = .bool b :: rest) →
      (TestListenPort env s).1 = .ret false (some .ErrInvalidReturnValue)) := by
  obtain ⟨resp, hrpc, hE, hv⟩ := h
  subst hv
  cases hvals : resp.returnValue with
  | nil => simp [TestListenPort, Client.rpc, hrpc, hE, hvals]
  | cons first rest =>
    cases first <;> simp [TestListenPort, Client.rpc, hrpc, hE, hvals]

/-- Witness of C8: the payloads [true], [nil] and [] of `TestListenPort`. -/
theorem TestListenPort_bool_or_shape_error_witness :
    (TestListenPort (Env.answering (.ok (DelugeResponse.success [Value.bool true])))
      (State.init ⟨true, ⟨none⟩⟩)).1 = .ret true none ∧
    (TestListenPort (Env.answering (.ok (DelugeResponse.success [Value.nil])))
      (State.init ⟨true, ⟨none⟩⟩)).1 = .ret false (some .ErrInvalidReturnValue) ∧
    (TestListenPort (Env.answering (.ok (DelugeResponse.success [])))
      (State.init ⟨true, ⟨none⟩⟩)).1 = .ret false (some .ErrInvalidReturnValue) :=
  ⟨((TestListenPort_bool_or_shape_error
      (Env.answering (.ok (DelugeResponse.success [Value.bool true])))
      (State.init ⟨true, ⟨none⟩⟩) [Value.bool true] ⟨_, rfl, rfl, rfl⟩).1 true).2 ⟨[], rfl⟩,
   (TestListenPort_bool_or_shape_error
      (Env.answering (.ok (DelugeResponse.success [Value.nil])))
      (State.init ⟨true, ⟨none⟩⟩) [Value.nil] ⟨_, rfl, rfl, rfl⟩).2 (by simp),
   (TestListenPort_bool_or_shape_error
      (Env.answering (.ok (DelugeResponse.success [])))
      (State.init ⟨true, ⟨none⟩⟩) [] ⟨_, rfl, rfl, rfl⟩).2 (by simp)⟩

/-! ### Arity checks and unchecked type assertions -/

/-- On a successful response `RemoveTorrent` takes the payload to hold exactly one
value and asserts that it is a boolean. -/
theorem RemoveTorrent_of_succeeds (env : Env) (id : GoString) (rmFiles : Bool) (s : State)
    (vals : RList)
    (h : Succeeds env ⟨"core.remove_torrent", [.str id, .bool rmFiles], []⟩ vals) :
    (RemoveTorrent env id rmFiles s).1 =
      if vals.length != 1 then .ret false (some .ErrInvalidReturnValue)
      else
        match (vals[0]? : Option Value) with
        | some (.bool success) => .ret success none
        | _ => .panicked := by
  obtain ⟨resp, hrpc, hE, hv⟩ := h
  subst hv
  simp only [RemoveTorrent, Client.rpc, RList.Add, List.nil_append, hrpc, hE,
    Bool.false_eq_true, if_false]
  split
  · rfl
  · split <;> rfl

/-- On a successful response `CreateAccount` returns what the success decoding gives. -/
theorem CreateAccount_of_succeeds (env : Env) (account : env.Account) (s : State)
    (vals : RList) (h : Succeeds env ⟨"core.create_account", env.toList account, []⟩ vals) :
    (CreateAccount env account s).1 = decodeSuccess vals := by
  obtain ⟨resp, hrpc, hE, hv⟩ := h
  simp [CreateAccount, Client.rpc, hrpc, hE, hv]

/-- On a successful response `UpdateAccount` returns what the success decoding gives. -/
theorem UpdateAccount_of_succeeds (env : Env) (account : env.Account) (s : State)
    (vals : RList) (h : Succeeds env ⟨"core.update_account", env.toList account, []⟩ vals) :
    (UpdateAccount env account s).1 = decodeSuccess vals := by
  obtain ⟨resp, hrpc, hE, hv⟩ := h
  simp [UpdateAccount, Client.rpc, hrpc, hE, hv]

/-- On a successful response `RemoveAccount` returns what the success decoding gives. -/
theorem RemoveAccount_of_succeeds (env : Env) (username : GoString) (s : State)
    (vals : RList) (h : Succeeds env ⟨"core.remove_account", [.str username], []⟩ vals) :
    (RemoveAccount env username s).1 = decodeSuccess vals := by
  obtain ⟨resp, hrpc, hE, hv⟩ := h
  simp [RemoveAccount, Client.rpc, RList.Add, hrpc, hE, hv]

/-- On a successful response `TestListenPort` returns a boolean first value, and a
shape error on anything else. -/
theorem TestListenPort_of_succeeds (env : Env) (s : State) (vals : RList)
    (h : Succeeds env ⟨"core.test_listen_port", [], []⟩ vals) :
    (TestListenPort env s).1 =
      match vals with
      | .bool v :: _ => .ret v none
      | _ => .ret false (some .ErrInvalidReturnValue) := by
  obtain ⟨resp, hrpc, hE, hv⟩ := h
  cases vals with
  | nil => simp [TestListenPort, Client.rpc, hrpc, hE, hv]
  | cons first rest =>
    cases first <;> simp [TestListenPort, Client.rpc, hrpc, hE, hv]

/-- The hash decoding rejects only the empty payload and reads the first value alone. -/
theorem decodeTorrentHash_arity (vals : RList) :
    ArityAtLeastOne vals GoString.empty (fun first => decodeTorrentHash [first])
      (decodeTorrentHash vals) := by
  constructor
  · intro h
    simp [decodeTorrentHash, h]
  · intro first rest h
    subst h
    simp [decodeTorrentHash]

/-- The success decoding rejects only the empty payload and reads the first value alone. -/
theorem decodeSuccess_arity (vals : RList) :
    ArityAtLeastOne vals false (fun first => decodeSuccess [first]) (decodeSuccess vals) := by
  constructor
  · intro h
    simp [decodeSuccess, h]
  · intro first rest h
    subst h
    simp [decodeSuccess]

/-- Counterexample to C9 as stated: the payload [true, false] holds two values, and
`CreateAccount` returns (true, nil) instead of `ErrInvalidReturnValue`. -/
theorem CreateAccount_accepts_two_values :
    [Value.bool true, Value.bool false].length ≠ 1 ∧
    (CreateAccount (Env.answering (.ok (DelugeResponse.success
      [Value.bool true, Value.bool false]))) () (State.init ⟨true, ⟨none⟩⟩)).1 =
        .ret true none ∧
    (CreateAccount (Env.answering (.ok (DelugeResponse.success
      [Value.bool true, Value.bool false]))) () (State.init ⟨true, ⟨none⟩⟩)).1 ≠
        .ret false (some .ErrInvalidReturnValue) := by
  refine ⟨by decide, by decide, by decide⟩

/-- C9 (amended): on a successful response with payload `vals`, `RemoveTorrents` and
`RemoveTorrent` check the arity exactly (any count other than 1 gives
`ErrInvalidReturnValue` and the zero result), while `AddTorrentMagnet`, `AddTorrentURL`,
`AddTorrentFile`, `CreateAccount`, `UpdateAccount`, `RemoveAccount` and `TestListenPort`
reject only the empty payload with `ErrInvalidReturnValue`: given one or more values they
decode the first one as if it were alone and ignore the others. -/
theorem arity_check_per_method (env : Env) (s : State) (vals : RList) :
    (∀ ids rmFiles, Succeeds env (removeTorrentsCall ids rmFiles) vals →
      ArityExactlyOne vals Slice.nil (RemoveTorrents env ids rmFiles s).1) ∧
    (∀ id rmFiles, Succeeds env ⟨"core.remove_torrent", [.str id, .bool rmFiles], []⟩ vals →
      ArityExactlyOne vals false (RemoveTorrent env id rmFiles s).1) ∧
    (∀ magnetURI options, Succeeds env ⟨"core.add_torrent_magnet",
        [.str magnetURI, .dict (env.toDictionary options s.client.v2daemon)], []⟩ vals →
      ArityAtLeastOne vals GoString.empty (fun first => decodeTorrentHash [first])
        (AddTorrentMagnet env magnetURI options s).1) ∧
    (∀ url options, Succeeds env ⟨"core.add_torrent_url",
        [.str url, .dict (env.toDictionary options s.client.v2daemon)], []⟩ vals →
      ArityAtLeastOne vals GoString.empty (fun first => decodeTorrentHash [first])
        (AddTorrentURL env url options s).1) ∧
    (∀ fileName content options, Succeeds env ⟨"core.add_torrent_file",
        [.str fileName, .str content,
          .dict (env.toDictionary options s.client.v2daemon)], []⟩ vals →
      ArityAtLeastOne vals GoString.empty (fun first => decodeTorrentHash [first])
        (AddTorrentFile env fileName content options s).1) ∧
    (∀ account, Succeeds env ⟨"core.create_account", env.toList account, []⟩ vals →
      ArityAtLeastOne vals false (fun first => decodeSuccess [first])
        (CreateAccount env account s).1) ∧
    (∀ account, Succeeds env ⟨"core.update_account", env.toList account, []⟩ vals →
      ArityAtLeastOne vals false (fun first => decodeSuccess [first])
        (UpdateAccount env account s).1) ∧
    (∀ username, Succeeds env ⟨"core.remove_account", [.str username], []⟩ vals →
      ArityAtLeastOne vals false (fun first => decodeSuccess [first])
        (RemoveAccount env username s).1) ∧
    (Succeeds env ⟨"core.test_listen_port", [], []⟩ vals →
      ArityAtLeastOne vals false
        (fun first => match first with
          | .bool v => .ret v none
          | _ => .ret false (some .ErrInvalidReturnValue))
        (TestListenPort env s).1) := by
  refine ⟨?_, ?_, ?_, ?_, ?_, ?_, ?_, ?_, ?_⟩
  · intro ids rmFiles h hlen
    rw [RemoveTorrents_of_succeeds env ids rmFiles s vals h]
    simp [RemoveTorrents.decode, hlen]
  · intro id rmFiles h hlen
    rw [RemoveTorrent_of_succeeds env id rmFiles s vals h]
    simp [hlen]
  · intro magnetURI options h
    rw [AddTorrentMagnet_of_succeeds env magnetURI options s vals h]
    exact decodeTorrentHash_arity vals
  · intro url options h
    rw [AddTorrentURL_of_succeeds env url options s vals h]
    exact decodeTorrentHash_arity vals
  · intro fileName content options h
    rw [AddTorrentFile_of_succeeds env fileName content options s vals h]
    exact decodeTorrentHash_arity vals
  · intro account h
    rw [CreateAccount_of_succeeds env account s vals h]
    exact decodeSuccess_arity vals
  · intro account h
    rw [UpdateAccount_of_succeeds env account s vals h]
    exact decodeSuccess_arity vals
  · intro username h
    rw [RemoveAccount_of_succeeds env username s vals h]
    exact decodeSuccess_arity vals
  · intro h
    rw [TestListenPort_of_succeeds env s vals h]
    constructor
    · intro hlen
      have : vals = [] := List.length_eq_zero.mp hlen
      subst this
      rfl
    · intro first rest hv
      subst hv
      cases first <;> rfl

/-- Witness of C9 (amended): on the two-value payload [true, false], `RemoveTorrent`
returns `ErrInvalidReturnValue` and `CreateAccount` returns (true, nil). -/
theorem arity_check_per_method_witness :
    (RemoveTorrent (Env.answering (.ok (DelugeResponse.success
      [Value.bool true, Value.bool false]))) ⟨[97]⟩ false (State.init ⟨true, ⟨none⟩⟩)).1 =
        .ret false (some .ErrInvalidReturnValue) ∧
    (CreateAccount (Env.answering (.ok (DelugeResponse.success
      [Value.bool true, Value.bool false]))) () (State.init ⟨true, ⟨none⟩⟩)).1 =
        decodeSuccess [Value.bool true] :=
  ⟨(arity_check_per_method (Env.answering (.ok (DelugeResponse.success
      [Value.bool true, Value.bool false]))) (State.init ⟨true, ⟨none⟩⟩)
      [Value.bool true, Value.bool false]).2.1 ⟨[97]⟩ false ⟨_, rfl, rfl, rfl⟩ (by decide),
   ((arity_check_per_method (Env.answering (.ok (DelugeResponse.success
      [Value.bool true, Value.bool false]))) (State.init ⟨true, ⟨none⟩⟩)
      [Value.bool true, Value.bool false]).2.2.2.2.2.1 () ⟨_, rfl, rfl, rfl⟩).2
        (Value.bool true) [Value.bool false] rfl⟩

/-- C10: decode failures are not always surfaced as errors. On a successful response,
`RemoveTorrent`, `CreateAccount`, `UpdateAccount` and `RemoveAccount` on a one-value
payload whose value is not a boolean, `AddTorrentMagnet`, `AddTorrentURL` and
`AddTorrentFile` on a payload whose first value is neither nil nor a byte-string, and
`RemoveTorrents` on a one-value payload whose value is not a sequence, reach the unchecked
type assertion with a value of the wrong type and panic instead of returning a shape error. -/
theorem unchecked_assertions_panic (env : Env) (s : State) (v : Value) (rest : RList) :
    ((∀ b, v ≠ .bool b) →
      (∀ id rmFiles, Succeeds env ⟨"core.remove_torrent", [.str id, .bool rmFiles], []⟩ [v] →
        (RemoveTorrent env id rmFiles s).1 = .panicked) ∧
      (∀ account, Succeeds env ⟨"core.create_account", env.toList account, []⟩ [v] →
        (CreateAccount env account s).1 = .panicked) ∧
      (∀ account, Succeeds env ⟨"core.update_account", env.toList account, []⟩ [v] →
        (UpdateAccount env account s).1 = .panicked) ∧
      (∀ username, Succeeds env ⟨"core.remove_account", [.str username], []⟩ [v] →
        (RemoveAccount env username s).1 = .panicked)) ∧
    (v ≠ .nil → (∀ h, v ≠ .bytes h) →
      (∀ magnetURI options, Succeeds env ⟨"core.add_torrent_magnet",
          [.str magnetURI, .dict (env.toDictionary options s.client.v2daemon)], []⟩
          (v :: rest) →
        (AddTorrentMagnet env magnetURI options s).1 = .panicked) ∧
      (∀ url options, Succeeds env ⟨"core.add_torrent_url",
          [.str url, .dict (env.toDictionary options s.client.v2daemon)], []⟩ (v :: rest) →
        (AddTorrentURL env url options s).1 = .panicked) ∧
      (∀ fileName content options, Succeeds env ⟨"core.add_torrent_file",
          [.str fileName, .str content,
            .dict (env.toDictionary options s.client.v2daemon)], []⟩ (v :: rest) →
        (AddTorrentFile env fileName content options s).1 = .panicked)) ∧
    ((∀ vs, v ≠ .list vs) →
      ∀ ids rmFiles, Succeeds env (removeTorrentsCall ids rmFiles) [v] →
        (RemoveTorrents env ids rmFiles s).1 = .panicked) := by
  have hsucc : (∀ b, v ≠ .bool b) → decodeSuccess [v] = .panicked := by
    intro hb
    cases v <;> simp [decodeSuccess] at hb ⊢
  have hhash : v ≠ .nil → (∀ h, v ≠ .bytes h) → decodeTorrentHash (v :: rest) = .panicked := by
    intro hn hb
    cases v <;> simp [decodeTorrentHash] at hn hb ⊢
  refine ⟨fun hb => ⟨?_, ?_, ?_, ?_⟩, fun hn hb => ⟨?_, ?_, ?_⟩, ?_⟩
  · intro id rmFiles h
    rw [RemoveTorrent_of_succeeds env id rmFiles s _ h]
    cases v <;> simp at hb ⊢
  · intro account h
    rw [CreateAccount_of_succeeds env account s _ h]
    exact hsucc hb
  · intro account h
    rw [UpdateAccount_of_succeeds env account s _ h]
    exact hsucc hb
  · intro username h
    rw [RemoveAccount_of_succeeds env username s _ h]
    exact hsucc hb
  · intro magnetURI options h
    rw [AddTorrentMagnet_of_succeeds env magnetURI options s _ h]
    exact hhash hn hb
  · intro url options h
    rw [AddTorrentURL_of_succeeds env url options s _ h]
    exact hhash hn hb
  · intro fileName content options h
    rw [AddTorrentFile_of_succeeds env fileName content options s _ h]
    exact hhash hn hb
  · intro hl ids rmFiles h
    rw [RemoveTorrents_of_succeeds env ids rmFiles s _ h]
    cases v <;> simp [RemoveTorrents.decode] at hl ⊢

/-- Failing input of C10: the daemon answers `RemoveTorrent` with the one-value payload
[nil]; the call panics, returning neither a typed success value nor an error. -/
theorem unchecked_assertions_panic_witness :
    (RemoveTorrent (Env.answering (.ok (DelugeResponse.success [Value.nil]))) ⟨[97]⟩ false
      (State.init ⟨true, ⟨none⟩⟩)).1 = .panicked ∧
    ¬ ∃ val err, (RemoveTorrent (Env.answering (.ok (DelugeResponse.success [Value.nil])))
      ⟨[97]⟩ false (State.init ⟨true, ⟨none⟩⟩)).1 = .ret val err := by
  have h := ((unchecked_assertions_panic
    (Env.answering (.ok (DelugeResponse.success [Value.nil])))
    (State.init ⟨true, ⟨none⟩⟩) Value.nil []).1 (by simp)).1 ⟨[97]⟩ false ⟨_, rfl, rfl, rfl⟩
  refine ⟨h, ?_⟩
  rintro ⟨val, err, he⟩
  rw [h] at he
  cases he

/-! ### Transport invocations -/

/-- The list built by `sliceToRencodeList` from a start list: the strings follow in order. -/
theorem sliceToRencodeList_foldl (s : List GoString) (acc : RList) :
    s.foldl (fun list v => RList.Add list [Value.str v]) acc = acc ++ s.map Value.str := by
  induction s generalizing acc with
  | nil => simp
  | cons v rest ih =>
    simp only [List.foldl_cons, List.map_cons]
    rw [ih]
    simp [RList.Add]

/-- The function `sliceToRencodeList` holds the caller's strings, one value each, in order. -/
theorem sliceToRencodeList_eq_map (s : List GoString) :
    sliceToRencodeList s = s.map Value.str := by
  simp [sliceToRencodeList, sliceToRencodeList_foldl]

/-- C11: every operation of methods.go, on every input and whatever the transport
answers (failure, daemon error, any payload, also one on which the decoding fails),
makes exactly one transport invocation, with an empty keyword-argument dictionary, the
wire method name of the interface table and the positional arguments in the table's
shape; an id list argument is the sequence built by `sliceToRencodeList`, which has the
length of the caller's ids and holds them in the same order. The 21 methods that invoke
the transport themselves are followed on the code; `SessionState`, `GetEnabledPlugins`
and `GetAvailablePlugins` go through the helper `rpcWithStringsResult`. -/
theorem one_transport_invocation_per_method (env : Env) (s : State) :
    (∀ path, InvokesOnce s (GetFreeSpace env path s).2 "core.get_free_space" [.str path]) ∧
    InvokesOnce s (GetLibtorrentVersion env s).2 "core.get_libtorrent_version" [] ∧
    (∀ magnetURI options, InvokesOnce s (AddTorrentMagnet env magnetURI options s).2
      "core.add_torrent_magnet"
      [.str magnetURI, .dict (env.toDictionary options s.client.v2daemon)]) ∧
    (∀ url options, InvokesOnce s (AddTorrentURL env url options s).2
      "core.add_torrent_url" [.str url, .dict (env.toDictionary options s.client.v2daemon)]) ∧
    (∀ fileName content options, InvokesOnce s (AddTorrentFile env fileName content options s).2
      "core.add_torrent_file"
      [.str fileName, .str content, .dict (env.toDictionary options s.client.v2daemon)]) ∧
    (∀ ids rmFiles, InvokesOnce s (RemoveTorrents env ids rmFiles s).2
      "core.remove_torrents" [.list (sliceToRencodeList ids), .bool rmFiles]) ∧
    (∀ id rmFiles, InvokesOnce s (RemoveTorrent env id rmFiles s).2
      "core.remove_torrent" [.str id, .bool rmFiles]) ∧
    (∀ ids, InvokesOnce s (PauseTorrents env ids s).2
      (if s.client.v2daemon then "core.pause_torrents" else "core.pause_torrent")
      [.list (sliceToRencodeList ids)]) ∧
    (∀ ids, InvokesOnce s (ResumeTorrents env ids s).2
      (if s.client.v2daemon then "core.resume_torrents" else "core.resume_torrent")
      [.list (sliceToRencodeList ids)]) ∧
    (∀ torrentIDs dest, InvokesOnce s (MoveStorage env torrentIDs dest s).2
      "core.move_storage" [.list (sliceToRencodeList torrentIDs), .str dest]) ∧
    (∀ id options, InvokesOnce s (SetTorrentOptions env id options s).2
      "core.set_torrent_options"
      [.str id, .dict (env.toDictionary options s.client.v2daemon)]) ∧
    (∀ id trackerURL, InvokesOnce s (SetTorrentTracker env id trackerURL s).2
      "core.set_torrent_trackers"
      [.str id, .list [.dict [(.str (GoString.lit "url"), .str trackerURL),
        (.str (GoString.lit "tier"), .int 0)]]]) ∧
    InvokesOnce s (KnownAccounts env s).2 "core.get_known_accounts" [] ∧
    (∀ account, InvokesOnce s (CreateAccount env account s).2
      "core.create_account" (env.toList account)) ∧
    (∀ account, InvokesOnce s (UpdateAccount env account s).2
      "core.update_account" (env.toList account)) ∧
    (∀ username, InvokesOnce s (RemoveAccount env username s).2
      "core.remove_account" [.str username]) ∧
    (∀ ids, InvokesOnce s (ForceReannounce env ids s).2
      "core.force_reannounce" [.list (sliceToRencodeList ids)]) ∧
    (∀ name, InvokesOnce s (EnablePlugin env name s).2 "core.enable_plugin" [.str name]) ∧
    (∀ name, InvokesOnce s (DisablePlugin env name s).2 "core.disable_plugin" [.str name]) ∧
    InvokesOnce s (TestListenPort env s).2 "core.test_listen_port" [] ∧
    InvokesOnce s (GetListenPort env s).2 "core.get_listen_port" [] ∧
    InvokesOnce s (SessionState env s).2 "core.get_session_state" [] ∧
    InvokesOnce s (GetEnabledPlugins env s).2 "core.get_enabled_plugins" [] ∧
    InvokesOnce s (GetAvailablePlugins env s).2 "core.get_available_plugins" [] ∧
    (∀ ids, (sliceToRencodeList ids).length = ids.length ∧
      sliceToRencodeList ids = ids.map Value.str ∧
      ∀ i : Nat, (sliceToRencodeList ids)[i]? = (ids[i]?).map Value.str) := by
  refine ⟨?_, ?_, ?_, ?_, ?_, ?_, ?_, ?_, ?_, ?_, ?_, ?_, ?_, ?_, ?_, ?_, ?_, ?_, ?_, ?_, ?_, ?_,
    ?_, ?_, ?_⟩
  case refine_25 =>
    intro ids
    rw [sliceToRencodeList_eq_map]
    simp
  all_goals
    intros
    simp only [InvokesOnce, GetFreeSpace, GetLibtorrentVersion, AddTorrentMagnet, AddTorrentURL,
      AddTorrentFile, RemoveTorrents, RemoveTorrent, PauseTorrents, ResumeTorrents,
      MoveStorage, SetTorrentOptions, SetTorrentTracker, KnownAccounts, CreateAccount,
      UpdateAccount, RemoveAccount, ForceReannounce, EnablePlugin, DisablePlugin,
      TestListenPort, GetListenPort, SessionState, GetEnabledPlugins, GetAvailablePlugins,
      Client.rpcWithStringsResult, Client.rpc, RList.Add, Dictionary.Add, List.nil_append]
    generalize env.rpc _ = r
    cases hv : s.client.v2daemon <;> cases r with
    | error e => simp
    | ok resp =>
      cases hE : resp.IsError <;>
        simp only [hE, Bool.false_eq_true, if_false, if_true, Bool.not_false, Bool.not_true] <;>
        (repeat' split) <;> simp [Logger.Printf]

/-- Witness of C11: `RemoveTorrents` of two ids makes its single invocation also when
the payload cannot be decoded (the call panics), `GetListenPort` makes its single
invocation when the transport fails, and `GetAvailablePlugins` makes its single
invocation on a payload that is not a list of strings. -/
theorem one_transport_invocation_per_method_witness :
    (RemoveTorrents (Env.answering (.ok (DelugeResponse.success [Value.nil])))
      [⟨[97]⟩, ⟨[98]⟩] true (State.init ⟨true, ⟨none⟩⟩)).2.calls =
        [(⟨"core.remove_torrents",
          [Value.list [Value.str ⟨[97]⟩, Value.str ⟨[98]⟩], Value.bool true], []⟩ : Call)] ∧
    (GetListenPort (Env.answering (.error (.external "timeout")))
      (State.init ⟨false, ⟨none⟩⟩)).2.calls =
        [(⟨"core.get_listen_port", [], []⟩ : Call)] ∧
    (GetAvailablePlugins (Env.answering (.ok (DelugeResponse.success [Value.int 3])))
      (State.init ⟨true, ⟨none⟩⟩)).2.calls =
        [(⟨"core.get_available_plugins", [], []⟩ : Call)] :=
  ⟨(one_transport_invocation_per_method
      (Env.answering (.ok (DelugeResponse.success [Value.nil])))
      (State.init ⟨true, ⟨none⟩⟩)).2.2.2.2.2.1 [⟨[97]⟩, ⟨[98]⟩] true,
   (one_transport_invocation_per_method (Env.answering (.error (.external "timeout")))
      (State.init ⟨false, ⟨none⟩⟩)).2.2.2.2.2.2.2.2.2.2.2.2.2.2.2.2.2.2.2.2.1,
   (one_transport_invocation_per_method
      (Env.answering (.ok (DelugeResponse.success [Value.int 3])))
      (State.init ⟨true, ⟨none⟩⟩)).2.2.2.2.2.2.2.2.2.2.2.2.2.2.2.2.2.2.2.2.2.2.2.1⟩

/-! ### Diagnostics of `TestListenPort` -/

/-- Counterexample to C12 as stated: on an empty payload, with a `Logger` configured,
`TestListenPort` returns the shape error without emitting any diagnostic. -/
theorem TestListenPort_empty_payload_not_logged :
    (State.init ⟨true, ⟨some ⟨1⟩⟩⟩).client.settings.Logger = some ⟨1⟩ ∧
    (TestListenPort (Env.answering (.ok (DelugeResponse.success [])))
      (State.init ⟨true, ⟨some ⟨1⟩⟩⟩)).1 = .ret false (some .ErrInvalidReturnValue) ∧
    (TestListenPort (Env.answering (.ok (DelugeResponse.success [])))
      (State.init ⟨true, ⟨some ⟨1⟩⟩⟩)).2.logs = [] ∧
    ¬ ∃ entry, (TestListenPort (Env.answering (.ok (DelugeResponse.success [])))
      (State.init ⟨true, ⟨some ⟨1⟩⟩⟩)).2.logs = (State.init ⟨true, ⟨some ⟨1⟩⟩⟩).logs ++ [entry] := by
  have h : (TestListenPort (Env.answering (.ok (DelugeResponse.success [])))
      (State.init ⟨true, ⟨some ⟨1⟩⟩⟩)).2.logs = [] := rfl
  refine ⟨rfl, rfl, h, ?_⟩
  rintro ⟨entry, he⟩
  rw [h] at he
  simp [State.init] at he

/-- C12 (amended): on a successful response to `TestListenPort` whose payload holds a
first value that is not a boolean (a value of the wrong type, or nil), the shape error
is returned, and if a `Logger` is configured exactly one diagnostic recording that raw
value is emitted, while if none is configured nothing is emitted; on an empty payload
the shape error is returned and nothing is emitted, with or without a `Logger`; when
the first value is a boolean no diagnostic is emitted. -/
theorem TestListenPort_diagnostic (env : Env) (s : State) (vals : RList)
    (h : Succeeds env ⟨"core.test_listen_port", [], []⟩ vals) :
    (∀ first rest, vals = first :: rest → (∀ b, first ≠ .bool b) →
      (TestListenPort env s).1 = .ret false (some .ErrInvalidReturnValue) ∧
      (∀ logger, s.client.settings.Logger = some logger →
        (TestListenPort env s).2.logs =
          s.logs ++ [⟨logger, "TestListenPort returned %v", [first]⟩]) ∧
      (s.client.settings.Logger = none → (TestListenPort env s).2.logs = s.logs)) ∧
    (vals = [] →
      (TestListenPort env s).1 = .ret false (some .ErrInvalidReturnValue) ∧
      (TestListenPort env s).2.logs = s.logs) ∧
    (∀ b rest, vals = .bool b :: rest →
      (TestListenPort env s).1 = .ret b none ∧ (TestListenPort env s).2.logs = s.logs) := by
  obtain ⟨resp, hrpc, hE, hv⟩ := h
  refine ⟨?_, ?_, ?_⟩
  · intro first rest hvals hb
    subst hvals
    refine ⟨?_, ?_, ?_⟩
    · cases first <;> simp [TestListenPort, Client.rpc, hrpc, hE, hv] at hb ⊢
    · intro logger hl
      cases first <;> simp [TestListenPort, Client.rpc, Logger.Printf, hrpc, hE, hv, hl] at hb ⊢
    · intro hl
      cases first <;> simp [TestListenPort, Client.rpc, Logger.Printf, hrpc, hE, hv, hl] at hb ⊢
  · intro hvals
    subst hvals
    simp [TestListenPort, Client.rpc, hrpc, hE, hv]
  · intro b rest hvals
    subst hvals
    simp [TestListenPort, Client.rpc, hrpc, hE, hv]

/-- Witness of C12 (amended): with a `Logger` configured, the payload [nil] is logged
once with its raw value, and the payload [true] is not logged. -/
theorem TestListenPort_diagnostic_witness :
    (TestListenPort (Env.answering (.ok (DelugeResponse.success [Value.nil])))
      (State.init ⟨true, ⟨some ⟨1⟩⟩⟩)).2.logs =
        [(⟨⟨1⟩, "TestListenPort returned %v", [Value.nil]⟩ : LogEntry)] ∧
    (TestListenPort (Env.answering (.ok (DelugeResponse.success [Value.bool true])))
      (State.init ⟨true, ⟨some ⟨1⟩⟩⟩)).2.logs = [] :=
  ⟨((TestListenPort_diagnostic (Env.answering (.ok (DelugeResponse.success [Value.nil])))
      (State.init ⟨true, ⟨some ⟨1⟩⟩⟩) [Value.nil] ⟨_, rfl, rfl, rfl⟩).1
        Value.nil [] rfl (by simp)).2.1 ⟨1⟩ rfl,
   ((TestListenPort_diagnostic (Env.answering (.ok (DelugeResponse.success [Value.bool true])))
      (State.init ⟨true, ⟨some ⟨1⟩⟩⟩) [Value.bool true] ⟨_, rfl, rfl, rfl⟩).2.2
        true [] rfl).2⟩

end Deluge
